import Mathlib

/-!
Verification of the claim-based work-queue coordination model of the
Bunny-to-Supabase migration tool.  The Lean definitions below are a shallow
embedding of the repository sources:

* `db_setup.sql`   — table shapes and the SQL functions `claim_next_dir`,
  `claim_files_to_migrate` and `increment_progress`.  Each SQL function runs
  as one transaction, so it is embedded as one atomic state transformation
  on the table (a `List` of rows); timestamps are naturals (milliseconds).
* `discover-files.js` — the crawler: insert-only enqueue helpers, the
  heartbeat timer, healthy-job adoption, and the main scan loop.
* `migrate-files.js`  — the migration worker: batch claiming, the per-file
  retry loop `migrateOne`, finalization and the main batch loop.
* `control.js`        — only as evidence for the deployed schema (it reads
  `status = in_progress` and the `claimed_at` / `claimed_by` columns).

External capabilities (Bunny listing/download, Supabase upload) are modelled
as oracle parameters; wall-clock sleeping is not modelled (only the decision
structure around it is).
-/

/-- Status set of `scan_queue.status` (db_setup.sql line 27). -/
inductive QStatus
  | queued
  | claimed
  | done
  | failed
deriving DecidableEq, Repr

/-- Status set of `bunny_file_map.status`.  db_setup.sql only lists
pending/scanned/migrated/failed in a comment (line 42), but control.js and
migrate-files.js additionally use `in_progress` with claim metadata, so the
full status set of the spec is carried here. -/
inductive FStatus
  | pending
  | scanned
  | migrated
  | failed
  | in_progress
deriving DecidableEq, Repr

/-- Status set of `migration_jobs.status` (db_setup.sql line 5). -/
inductive JStatus
  | running
  | paused
  | stopped
  | completed
  | failed
deriving DecidableEq, Repr

/-- Kind of a job (db_setup.sql line 4). -/
inductive JobKind
  | discover
  | migrate
deriving DecidableEq, Repr

/-- Status set of `migration_logs.status` (db_setup.sql line 53). -/
inductive LStatus
  | pending
  | success
  | failed
deriving DecidableEq, Repr

/-- A row of `scan_queue` (db_setup.sql lines 23-31).  `id` stands for the
generated uuid, times are naturals; `created_at`/`updated_at` are omitted
(maintained by triggers, never read by the programs). -/
structure ScanRow where
  id : Nat
  path : String
  parent_path : Option String
  status : QStatus
  claimed_at : Option Nat
deriving DecidableEq, Repr

/-- A row of `bunny_file_map` (db_setup.sql lines 34-46).  The claim columns
`claimed_at`/`claimed_by` are absent from the CREATE TABLE in db_setup.sql
but are updated by migrate-files.js (`finalizeFile`) and control.js
(retry endpoints, `/files-inprogress`), so the deployed row evidently has
them; they are carried here and db_setup.sql's `claim_files_to_migrate`
simply never touches them. -/
structure FileRow where
  id : Nat
  path : String
  is_dir : Bool
  parent_path : Option String
  size : Option Int
  mime_type : Option String
  bunny_url : Option String
  status : FStatus
  claimed_at : Option Nat
  claimed_by : Option String
deriving DecidableEq, Repr

/-- A row of `migration_jobs` (db_setup.sql lines 2-9).  `last_heartbeat`,
`worker_id` and `host` are absent from the CREATE TABLE but inserted and
read by discover-files.js (`createJob`, `findHealthyRunningJob`), so the
deployed table has them. -/
structure Job where
  id : Nat
  kind : JobKind
  status : JStatus
  note : Option String
  created_at : Nat
  last_heartbeat : Option Nat
  worker_id : Option String
deriving DecidableEq, Repr

/-- A row of `migration_progress` (db_setup.sql lines 12-20), for one job. -/
structure Progress where
  total_bytes : Int
  total_files : Int
  scanned_dirs : Int
  migrated_files : Int
  failed_files : Int
  last_update : Nat
deriving DecidableEq, Repr

/-- A row of `migration_logs` (db_setup.sql lines 49-60); `upload_time` and
`time_taken` are wall-clock data and omitted. -/
structure LogRec where
  file_id : Nat
  job_id : Nat
  status : LStatus
  attempts : Nat
  bunny_path : String
  supabase_path : Option String
  error_msg : Option String
deriving DecidableEq, Repr

/-- The projection returned by `claim_next_dir` (RETURNING cte.id, cte.path,
cte.parent_path). -/
structure DirClaim where
  id : Nat
  path : String
  parent_path : Option String
deriving DecidableEq, Repr

/-- The projection returned by `claim_files_to_migrate` (RETURNING cte.id,
cte.path, cte.bunny_url, cte.mime_type, cte.size). -/
structure ClaimedFile where
  id : Nat
  path : String
  bunny_url : Option String
  mime_type : Option String
  size : Option Int
deriving DecidableEq, Repr

/-- One entry of a Bunny directory listing (lib/bunny.js `listDir`), with
the fields discover-files.js reads: ObjectName, IsDirectory, Length,
ContentType. -/
structure BunnyItem where
  objectName : String
  isDirectory : Bool
  length : Option Nat
  contentType : Option String
deriving DecidableEq, Repr

/-- A PostgREST/Postgres error as seen by the javascript callers: a code and
a message. -/
structure PgError where
  code : String
  message : String
deriving DecidableEq, Repr

/-- Lexicographic comparison of character lists by code point, the order
the store's ORDER BY induces on paths. -/
def strLeAux : List Char → List Char → Bool
  | [], _ => true
  | _ :: _, [] => false
  | a :: as, b :: bs =>
      if a.toNat < b.toNat then true
      else if b.toNat < a.toNat then false
      else strLeAux as bs

/-- Lexicographic string comparison by code point. -/
def strLe (a b : String) : Bool :=
  strLeAux a.data b.data

/-- ORDER BY `key` ascending: ordered insertion. -/
def insertByKey (key : α → String) (r : α) : List α → List α
  | [] => [r]
  | x :: xs => if strLe (key r) (key x) then r :: x :: xs else x :: insertByKey key r xs

/-- ORDER BY `key` ascending: insertion sort, the model of the SQL
`ORDER BY path`. -/
def sortByKey (key : α → String) : List α → List α
  | [] => []
  | r :: rs => insertByKey key r (sortByKey key rs)

/-- db_setup.sql lines 103-123, `claim_next_dir()`: in one transaction,
select the first `queued` row of scan_queue in path order, flip it to
`claimed` with `claimed_at = now()`, and return its (id, path, parent_path);
return none when no queued row exists.  `FOR UPDATE SKIP LOCKED` makes the
select-and-update atomic against concurrent claimants, which is why one call
is one state transformation here. -/
def claim_next_dir (now : Nat) (q : List ScanRow) : Option DirClaim × List ScanRow :=
  match sortByKey ScanRow.path (q.filter (fun r => decide (r.status = QStatus.queued))) with
  | [] => (none, q)
  | r :: _ =>
      (some { id := r.id, path := r.path, parent_path := r.parent_path },
       q.map (fun x =>
         if x.id = r.id then
           { x with status := QStatus.claimed, claimed_at := some now }
         else x))

/-- The selection predicate of `claim_files_to_migrate`:
`status = 'pending' AND is_dir = FALSE` (db_setup.sql line 135). -/
def claimableFile (b : FileRow) : Bool :=
  decide (b.status = FStatus.pending) && !b.is_dir

/-- The returned projection of a claimed file row. -/
def toClaimed (b : FileRow) : ClaimedFile :=
  { id := b.id, path := b.path, bunny_url := b.bunny_url,
    mime_type := b.mime_type, size := b.size }

/-- db_setup.sql lines 127-146, `claim_files_to_migrate(batch_size)`: in one
transaction, select up to `batch_size` pending non-directory rows of
bunny_file_map in path order, set their status to `scanned`, and return the
selected rows' (id, path, bunny_url, mime_type, size).  Note the UPDATE sets
only `status = 'scanned'`; it records no claimed_at/claimed_by and does not
use the `in_progress` status. -/
def claim_files_to_migrate (batch_size : Nat) (t : List FileRow) :
    List ClaimedFile × List FileRow :=
  let sel := (sortByKey FileRow.path (t.filter claimableFile)).take batch_size
  (sel.map toClaimed,
   t.map (fun x =>
     if sel.any (fun s => decide (s.id = x.id)) then
       { x with status := FStatus.scanned }
     else x))

/-- db_setup.sql lines 151-171, `increment_progress`: atomic arithmetic
update of the one progress row of the job (the COALESCE defaults never fire
for the javascript callers, which always pass every delta). -/
def increment_progress (now : Nat) (p : Progress)
    (tb tf sd mf ff : Int) : Progress :=
  { total_bytes := p.total_bytes + tb,
    total_files := p.total_files + tf,
    scanned_dirs := p.scanned_dirs + sd,
    migrated_files := p.migrated_files + mf,
    failed_files := p.failed_files + ff,
    last_update := now }

/-- ASCII case folding on code points, for the case-insensitive regex test. -/
def lowerCode (n : Nat) : Nat :=
  if 65 ≤ n ∧ n ≤ 90 then n + 32 else n

/-- Whether `pat` matches at the head of `s`, comparing code points after
ASCII case folding. -/
def matchHere : List Char → List Char → Bool
  | _, [] => true
  | [], _ :: _ => false
  | a :: as, b :: bs =>
      decide (lowerCode a.toNat = lowerCode b.toNat) && matchHere as bs

/-- Case-insensitive substring search over the characters of `s`. -/
def hasSubstrAux (pat : List Char) : List Char → Bool
  | [] => matchHere [] pat
  | c :: rest => matchHere (c :: rest) pat || hasSubstrAux pat rest

/-- Case-insensitive substring test, the model of the javascript regex test
`/duplicate|unique/i.test(message)` for one literal alternative. -/
def hasSubstr (s sub : String) : Bool :=
  hasSubstrAux sub.data s.data

/-- The duplicate-error test of discover-files.js lines 31 and 42:
`error.code === '23505' || /duplicate|unique/i.test(error.message)`. -/
def isDupErr (e : PgError) : Bool :=
  decide (e.code = "23505") || hasSubstr e.message "duplicate" ||
    hasSubstr e.message "unique"

/-- The error Postgres raises on a unique-index violation (code 23505). -/
def dupKeyError : PgError :=
  { code := "23505", message := "duplicate key value violates unique constraint" }

/-- A plain INSERT against a table with a unique index on `key`: appends the
row when no row with the same key exists, otherwise raises 23505 and leaves
the table unchanged (uniq_scan_queue_path / uniq_bunny_file_map_path,
db_setup.sql lines 65-66). -/
def dbInsertUnique (key : α → String) (t : List α) (r : α) :
    Except PgError (List α) :=
  if t.any (fun x => decide (key x = key r)) then Except.error dupKeyError
  else Except.ok (t ++ [r])

/-- The javascript error filter shared by `insertDir` and `insertFileOrDir`
(discover-files.js lines 31-33, 42-44): a duplicate error is swallowed
(the caller sees success and the table it knew), every other error is
rethrown. -/
def swallowDup (orig : List α) :
    Except PgError (List α) → Except PgError (List α)
  | Except.ok t2 => Except.ok t2
  | Except.error e => if isDupErr e then Except.ok orig else Except.error e

/-- discover-files.js lines 26-34, `insertDir(path, parent_path)`:
insert-only enqueue of a directory with status `queued`; duplicates are
ignored.  `newId` stands for the uuid the store generates for the row. -/
def insertDir (q : List ScanRow) (newId : Nat) (path : String)
    (parent : Option String) : Except PgError (List ScanRow) :=
  swallowDup q (dbInsertUnique ScanRow.path q
    { id := newId, path := path, parent_path := parent,
      status := QStatus.queued, claimed_at := none })

/-- discover-files.js lines 37-45, `insertFileOrDir(entry)`: insert-only
write of an inventory entry; duplicates are ignored. -/
def insertFileOrDir (t : List FileRow) (entry : FileRow) :
    Except PgError (List FileRow) :=
  swallowDup t (dbInsertUnique FileRow.path t entry)

/-- migrate-files.js line 149: destination path is the source path with a
leading slash removed. -/
def destPathOf (p : String) : String :=
  if p.startsWith "/" then p.drop 1 else p

/-- The store effects of one `migrateOne` call (migrate-files.js lines
146-203): how many transfer attempts ran (each is one download plus one
upload try), which log records were appended, the final inventory status
written by `finalizeFile`, and the deltas passed to `increment_progress`. -/
structure MigEffects where
  attemptsRun : Nat
  logs : List LogRec
  finalStatus : Option FStatus
  migratedDelta : Int
  failedDelta : Int
deriving DecidableEq, Repr

/-- The success log record of migrate-files.js lines 166-174. -/
def successLog (jobId : Nat) (f : ClaimedFile) (attempt : Nat) : LogRec :=
  { file_id := f.id, job_id := jobId, status := LStatus.success,
    attempts := attempt, bunny_path := f.path,
    supabase_path := some (destPathOf f.path), error_msg := none }

/-- The failure log record of migrate-files.js lines 183-192. -/
def failLog (jobId : Nat) (f : ClaimedFile) (attempt : Nat) (msg : String) :
    LogRec :=
  { file_id := f.id, job_id := jobId, status := LStatus.failed,
    attempts := attempt, bunny_path := f.path,
    supabase_path := some (destPathOf f.path), error_msg := some msg }

/-- The retry loop body of `migrateOne` (migrate-files.js lines 151-202),
entered with `attempt = a` already performed.  `tr attempt` is the oracle for
the whole download-and-upload of that attempt (the buffered/streaming split
on SMALL_FILE_THRESHOLD_BYTES only selects the transport and is folded into
the oracle); the backoff sleep between attempts is a pure delay and not
modelled. -/
def migrateGo (tr : Nat → Except String Unit) (maxRetries jobId : Nat)
    (f : ClaimedFile) (a : Nat) : MigEffects :=
  if _h : a < maxRetries then
    match tr (a + 1) with
    | Except.ok _ =>
        { attemptsRun := 1, logs := [successLog jobId f (a + 1)],
          finalStatus := some FStatus.migrated,
          migratedDelta := 1, failedDelta := 0 }
    | Except.error msg =>
        if maxRetries ≤ a + 1 then
          { attemptsRun := 1, logs := [failLog jobId f (a + 1) msg],
            finalStatus := some FStatus.failed,
            migratedDelta := 0, failedDelta := 1 }
        else
          let rest := migrateGo tr maxRetries jobId f (a + 1)
          { rest with attemptsRun := rest.attemptsRun + 1 }
  else
    { attemptsRun := 0, logs := [], finalStatus := none,
      migratedDelta := 0, failedDelta := 0 }
termination_by maxRetries - a
decreasing_by omega

/-- migrate-files.js lines 146-203, `migrateOne(job, file)`: the while loop
starting at `attempt = 0`. -/
def migrateOne (tr : Nat → Except String Unit) (maxRetries jobId : Nat)
    (f : ClaimedFile) : MigEffects :=
  migrateGo tr maxRetries jobId f 0

/-- migrate-files.js lines 82-93, `finalizeFile(id, status)`: set the row's
status and clear the claim metadata columns. -/
def finalizeFile (t : List FileRow) (id : Nat) (st : FStatus) : List FileRow :=
  t.map (fun x =>
    if x.id = id then { x with status := st, claimed_at := none, claimed_by := none }
    else x)

/-- discover-files.js lines 153-156, `markDirDone(id, status)`. -/
def markDirDone (q : List ScanRow) (id : Nat) (st : QStatus) : List ScanRow :=
  q.map (fun x => if x.id = id then { x with status := st } else x)

/-- Modelled from the spec: the rpc `touch_job(_job_id)` called by the
crawler's heartbeat (discover-files.js lines 99-105) is not defined under
src/; per spec section 4.4 the heartbeat updates the job's `last_heartbeat`
timestamp. -/
def touch_job (now : Nat) (j : Job) : Job :=
  { j with last_heartbeat := some now }

/-- Modelled from the spec: the rpc `reclaim_inprogress_to_pending
(minutes_threshold)` called by migrate-files.js line 212 and control.js is
not defined under src/; per spec sections 4.4 and 6 it resets in-progress
inventory claims whose claim timestamp exceeds the threshold back to
pending, clearing the claim metadata, so another worker can retry. -/
def reclaim_inprogress_to_pending (now thresholdMin : Nat)
    (t : List FileRow) : List FileRow :=
  t.map (fun b =>
    match b.claimed_at with
    | some ts =>
        if decide (b.status = FStatus.in_progress) &&
           decide (thresholdMin * 60000 < now - ts) then
          { b with status := FStatus.pending, claimed_at := none, claimed_by := none }
        else b
    | none => b)

/-- discover-files.js line 14: `STALE_MINUTES = 2`. -/
def STALE_MINUTES : Nat := 2

/-- discover-files.js line 13: `HEARTBEAT_MS = 15000`. -/
def HEARTBEAT_MS : Nat := 15000

/-- discover-files.js lines 141-143: a job is healthy when the age of its
last heartbeat (its creation time when it never heartbeated) is at most
STALE_MINUTES; `(now - last) / 60000 <= 2` over the reals is
`now - last <= 120000`, and a heartbeat in the future (negative age in
javascript) also passes, as does truncated natural subtraction here. -/
def healthyAge (now : Nat) (j : Job) : Bool :=
  decide (now - (j.last_heartbeat.getD j.created_at) ≤ STALE_MINUTES * 60000)

/-- Modelled from the spec: the rpc `reap_stale_jobs(_kind,
minutes_threshold)` called by discover-files.js lines 117-126 and control.js
is not defined under src/; per spec section 4.4 it scans jobs of the kind
still marked running whose heartbeat (creation time when none was ever
recorded) is older than the threshold and flips them to failed. -/
def reap_stale_jobs (now : Nat) (kind : JobKind) (thresholdMin : Nat)
    (jobs : List Job) : List Job :=
  jobs.map (fun j =>
    if decide (j.kind = kind) && decide (j.status = JStatus.running) &&
       decide (thresholdMin * 60000 < now - (j.last_heartbeat.getD j.created_at)) then
      { j with status := JStatus.failed }
    else j)

/-- ORDER BY created_at DESC LIMIT 1 (discover-files.js line 134): a row of
the list whose created_at is maximal (Postgres leaves ties unspecified; this
picks one). -/
def newestBy : List Job → Option Job
  | [] => none
  | j :: js =>
      match newestBy js with
      | none => some j
      | some m => if j.created_at < m.created_at then some m else some j

/-- The filter of discover-files.js lines 130-135: kind = discover and
status = running. -/
def runningDiscover (j : Job) : Bool :=
  decide (j.kind = JobKind.discover) && decide (j.status = JStatus.running)

/-- discover-files.js lines 128-145, `findHealthyRunningJob()`: take the most
recently created running discover job, return it when its heartbeat age is
within STALE_MINUTES, otherwise none. -/
def findHealthyRunningJob (now : Nat) (jobs : List Job) : Option Job :=
  match newestBy (jobs.filter runningDiscover) with
  | none => none
  | some j => if healthyAge now j then some j else none

/-- Outcome of the startup job selection of the crawler. -/
inductive Adoption
  | reuse (j : Job)
  | createNew
deriving DecidableEq, Repr

/-- discover-files.js lines 197-212 with the fixed configuration
`ALLOW_PARALLEL_DISCOVER = false`: after `reapStale()` (the spec-modelled
`reap_stale_jobs` with kind discover and threshold STALE_MINUTES), adopt the
job `findHealthyRunningJob` returns, else create a new one.
`ensureRootQueued` only touches scan_queue and is irrelevant to adoption. -/
def crawlerStartup (now : Nat) (jobs : List Job) : Adoption :=
  let reaped := reap_stale_jobs now JobKind.discover STALE_MINUTES jobs
  match findHealthyRunningJob now reaped with
  | some j => Adoption.reuse j
  | none => Adoption.createNew

/-- The combined filter the claim about adoption quantifies over: a healthy
running discover job.  (Stated from the claim's words, to be compared with
the startup path built from the source above.) -/
def healthyRunningDiscover (now : Nat) (j : Job) : Bool :=
  runningDiscover j && healthyAge now j

/-- The job the claim says the crawler must adopt: the most recently created
healthy running discover job.  (Stated from the claim's words.) -/
def specAdoptedJob (now : Nat) (jobs : List Job) : Option Job :=
  newestBy (jobs.filter (healthyRunningDiscover now))

/-- The two flavours of periodic task the two workers install with
`setInterval`. -/
inductive PeriodicTask
  | heartbeatTask
  | reclaimTask
deriving DecidableEq, Repr

/-- A `setInterval` registration: fixed interval in milliseconds and the
task it runs, independent of work progress. -/
structure Timer where
  interval : Nat
  task : PeriodicTask
deriving DecidableEq, Repr

/-- The periodic timers the crawler installs: `startHeartbeat()`
(discover-files.js lines 107-110) registers `heartbeat` — which calls the
`touch_job` rpc — every HEARTBEAT_MS. -/
def discoverTimers : List Timer :=
  [{ interval := HEARTBEAT_MS, task := PeriodicTask.heartbeatTask }]

/-- The periodic timers the migration worker installs: `run()`
(migrate-files.js lines 210-216) registers only the
`reclaim_inprogress_to_pending` rpc every 5 minutes; no heartbeat timer is
ever installed by migrate-files.js, and its `createJob` sets no
last_heartbeat either. -/
def migrateTimers : List Timer :=
  [{ interval := 5 * 60 * 1000, task := PeriodicTask.reclaimTask }]

/-- Whether a loop iteration ends with `continue` or `break`. -/
inductive LoopOutcome
  | continueLoop
  | exitLoop
deriving DecidableEq, Repr

/-- The store-visible state the crawler loop works on. -/
structure CrawlState where
  job : Job
  queue : List ScanRow
  inv : List FileRow
  prog : Progress
  now : Nat
  nextId : Nat
deriving DecidableEq, Repr

/-- Result of one crawler loop iteration: the new state, whether the loop
continues, and how many `claim_next_dir` calls the iteration issued. -/
structure CrawlIterResult where
  st : CrawlState
  outcome : LoopOutcome
  claimCalls : Nat
deriving DecidableEq, Repr

/-- Folding state while the crawler processes the children of one listed
directory (discover-files.js lines 239-266). -/
structure ScanAcc where
  queue : List ScanRow
  inv : List FileRow
  filesDelta : Nat
  bytesDelta : Nat
  nextId : Nat
deriving DecidableEq, Repr

/-- Run an insert-only write, which in this store model never surfaces an
error (the only error the unique-index insert raises is the duplicate, and
the wrapper swallows it). -/
def runInsertDir (q : List ScanRow) (newId : Nat) (path : String)
    (parent : Option String) : List ScanRow :=
  match insertDir q newId path parent with
  | Except.ok q2 => q2
  | Except.error _ => q

/-- Run an insert-only inventory write, as `runInsertDir`. -/
def runInsertFileOrDir (t : List FileRow) (entry : FileRow) : List FileRow :=
  match insertFileOrDir t entry with
  | Except.ok t2 => t2
  | Except.error _ => t

/-- One child of the listing (discover-files.js lines 242-266): build the
inventory entry, insert it (duplicates ignored), and either enqueue the
child directory or add the file to the per-directory deltas. -/
def processChild (absUrl : String → String) (dirPath : String)
    (acc : ScanAcc) (item : BunnyItem) : ScanAcc :=
  let isDir := item.isDirectory
  let itemPath := dirPath ++ item.objectName ++ (if isDir then "/" else "")
  let entry : FileRow :=
    { id := acc.nextId, path := itemPath, is_dir := isDir,
      parent_path := some dirPath,
      size := if isDir then none else (item.length.map Int.ofNat),
      mime_type := if isDir then none else item.contentType,
      bunny_url := if isDir then none else some (absUrl itemPath),
      status := FStatus.pending, claimed_at := none, claimed_by := none }
  let inv2 := runInsertFileOrDir acc.inv entry
  if isDir then
    { acc with
      inv := inv2,
      queue := runInsertDir acc.queue (acc.nextId + 1) itemPath (some dirPath),
      nextId := acc.nextId + 2 }
  else
    { acc with
      inv := inv2,
      filesDelta := acc.filesDelta + 1,
      bytesDelta := acc.bytesDelta + item.length.getD 0,
      nextId := acc.nextId + 1 }

/-- discover-files.js lines 242-266: the `for (const item of items)` loop. -/
def processChildren (absUrl : String → String) (dirPath : String)
    (items : List BunnyItem) (acc : ScanAcc) : ScanAcc :=
  items.foldl (processChild absUrl dirPath) acc

/-- One iteration of the crawler's `while (true)` loop (discover-files.js
lines 217-280): heartbeat, re-read the job status (paused waits and
continues, terminal statuses exit), claim one directory (an empty claim
immediately marks the job completed and exits), then list it and process the
children, marking the frontier entry done, or failed when the listing
oracle `listOf` errors. -/
def crawlIteration (absUrl : String → String)
    (listOf : String → Except String (List BunnyItem))
    (s : CrawlState) : CrawlIterResult :=
  let s1 := { s with job := touch_job s.now s.job }
  match s1.job.status with
  | JStatus.paused => { st := s1, outcome := LoopOutcome.continueLoop, claimCalls := 0 }
  | JStatus.stopped => { st := s1, outcome := LoopOutcome.exitLoop, claimCalls := 0 }
  | JStatus.failed => { st := s1, outcome := LoopOutcome.exitLoop, claimCalls := 0 }
  | JStatus.completed => { st := s1, outcome := LoopOutcome.exitLoop, claimCalls := 0 }
  | JStatus.running =>
      match claim_next_dir s1.now s1.queue with
      | (none, q2) =>
          { st := { s1 with
                    queue := q2,
                    job := { s1.job with status := JStatus.completed } },
            outcome := LoopOutcome.exitLoop, claimCalls := 1 }
      | (some claim, q2) =>
          match listOf claim.path with
          | Except.error _ =>
              { st := { s1 with queue := markDirDone q2 claim.id QStatus.failed },
                outcome := LoopOutcome.continueLoop, claimCalls := 1 }
          | Except.ok items =>
              let acc := processChildren absUrl claim.path items
                { queue := q2, inv := s1.inv, filesDelta := 0, bytesDelta := 0,
                  nextId := s1.nextId }
              let prog2 := increment_progress s1.now s1.prog
                (Int.ofNat acc.bytesDelta) (Int.ofNat acc.filesDelta) 1 0 0
              { st := { s1 with
                        queue := markDirDone acc.queue claim.id QStatus.done,
                        inv := acc.inv, prog := prog2, nextId := acc.nextId },
                outcome := LoopOutcome.continueLoop, claimCalls := 1 }

/-- The store-visible state the migration worker loop works on. -/
structure MigState where
  job : Job
  inv : List FileRow
  prog : Progress
  logs : List LogRec
  now : Nat
deriving DecidableEq, Repr

/-- Result of one migration-worker loop iteration. -/
structure MigIterResult where
  st : MigState
  outcome : LoopOutcome
  claimCalls : Nat
deriving DecidableEq, Repr

/-- Apply the store effects of one `migrateOne` run to the state: append the
log records, finalize the inventory row when a final status was reached, and
add the progress deltas (migrate-files.js lines 166-196 through
`logResult`, `finalizeFile`, `incProgress`). -/
def applyMigEffects (jobNow : Nat) (f : ClaimedFile) (eff : MigEffects)
    (s : MigState) : MigState :=
  { s with
    logs := s.logs ++ eff.logs,
    inv := match eff.finalStatus with
           | some st => finalizeFile s.inv f.id st
           | none => s.inv,
    prog := increment_progress jobNow s.prog 0 0 0 eff.migratedDelta eff.failedDelta }

/-- Process one claimed batch (migrate-files.js lines 232, 236): the p-limit
pool runs the transfers with bounded concurrency and unspecified relative
order; the store effects of distinct files commute (distinct log rows,
distinct inventory ids, atomic counter adds), so the batch is folded here in
list order. -/
def processBatch (tr : Nat → Except String Unit) (maxRetries : Nat)
    (batch : List ClaimedFile) (s : MigState) : MigState :=
  batch.foldl (fun st f =>
    applyMigEffects st.now f (migrateOne tr maxRetries st.job.id f) st) s

/-- One iteration of the migration worker's `while (true)` loop
(migrate-files.js lines 218-237): re-read the job status (paused waits and
continues, terminal statuses exit), claim a batch; an empty batch is
re-checked once after a short sleep and only a second empty batch marks the
job completed and exits.  (The source passes a `worker_id` argument to the
rpc that the function of db_setup.sql does not declare; the embedding
follows db_setup.sql's one-argument function.) -/
def migrateIteration (tr : Nat → Except String Unit) (maxRetries batchSize : Nat)
    (s : MigState) : MigIterResult :=
  match s.job.status with
  | JStatus.paused => { st := s, outcome := LoopOutcome.continueLoop, claimCalls := 0 }
  | JStatus.stopped => { st := s, outcome := LoopOutcome.exitLoop, claimCalls := 0 }
  | JStatus.failed => { st := s, outcome := LoopOutcome.exitLoop, claimCalls := 0 }
  | JStatus.completed => { st := s, outcome := LoopOutcome.exitLoop, claimCalls := 0 }
  | JStatus.running =>
      let res := claim_files_to_migrate batchSize s.inv
      let s2 := { s with inv := res.2 }
      if res.1.isEmpty then
        let again := claim_files_to_migrate batchSize s2.inv
        let s3 := { s2 with inv := again.2 }
        if again.1.isEmpty then
          { st := { s3 with job := { s3.job with status := JStatus.completed } },
            outcome := LoopOutcome.exitLoop, claimCalls := 2 }
        else
          { st := processBatch tr maxRetries again.1 s3,
            outcome := LoopOutcome.continueLoop, claimCalls := 2 }
      else
        { st := processBatch tr maxRetries res.1 s2,
          outcome := LoopOutcome.continueLoop, claimCalls := 1 }

/-- Ordered insertion preserves membership. -/
theorem mem_insertByKey {key : α → String} {r x : α} {l : List α} :
    x ∈ insertByKey key r l ↔ x = r ∨ x ∈ l := by
  induction l with
  | nil => simp [insertByKey]
  | cons y ys ih =>
      simp only [insertByKey]
      split
      · simp
      · simp [ih]
        tauto

/-- Sorting by key preserves membership. -/
theorem mem_sortByKey {key : α → String} {x : α} {l : List α} :
    x ∈ sortByKey key l ↔ x ∈ l := by
  induction l with
  | nil => simp [sortByKey]
  | cons y ys ih => simp [sortByKey, mem_insertByKey, ih]

/-- Ordered insertion preserves length. -/
theorem length_insertByKey {key : α → String} {r : α} {l : List α} :
    (insertByKey key r l).length = l.length + 1 := by
  induction l with
  | nil => simp [insertByKey]
  | cons y ys ih =>
      simp only [insertByKey]
      split
      · simp
      · simp [ih]

/-- Sorting by key preserves length. -/
theorem length_sortByKey {key : α → String} {l : List α} :
    (sortByKey key l).length = l.length := by
  induction l with
  | nil => rfl
  | cons y ys ih => simp [sortByKey, length_insertByKey, ih]

/-- A directory returned by `claim_next_dir` comes from a row of the table
that was claimable, that is, had status queued. -/
theorem claim_next_dir_returns_queued {now : Nat} {q : List ScanRow} {d : DirClaim}
    (h : (claim_next_dir now q).1 = some d) :
    ∃ r ∈ q, r.status = QStatus.queued ∧ d.id = r.id := by
  unfold claim_next_dir at h
  cases hs : sortByKey ScanRow.path
      (q.filter (fun r => decide (r.status = QStatus.queued))) with
  | nil => rw [hs] at h; simp at h
  | cons r rest =>
      rw [hs] at h
      simp only [Option.some.injEq] at h
      have hr : r ∈ sortByKey ScanRow.path
          (q.filter (fun r => decide (r.status = QStatus.queued))) := by
        rw [hs]; exact List.mem_cons_self r rest
      rw [mem_sortByKey] at hr
      have hf := List.mem_filter.mp hr
      refine ⟨r, hf.1, by simpa using hf.2, ?_⟩
      rw [← h]

/-- After a successful `claim_next_dir`, every row of the post-state carrying
the returned id has status claimed: the claim flipped the row out of its
claimable status in the same transaction. -/
theorem claim_next_dir_post {now : Nat} {q : List ScanRow} {d : DirClaim}
    (h : (claim_next_dir now q).1 = some d) :
    ∀ x ∈ (claim_next_dir now q).2, x.id = d.id → x.status = QStatus.claimed := by
  unfold claim_next_dir at h ⊢
  split at h
  · simp at h
  · next r rest hs =>
      simp only [Option.some.injEq] at h
      intro x hx hid
      simp only [List.mem_map] at hx
      obtain ⟨y, _, hxy⟩ := hx
      have hdid : d.id = r.id := by rw [← h]
      by_cases hyr : y.id = r.id
      · rw [← hxy]; simp [hyr]
      · rw [← hxy] at hid
        simp [hyr] at hid
        exact absurd (hid.trans hdid) hyr

/-- A file returned by `claim_files_to_migrate` comes from a row of the
table that satisfied the selection predicate (pending, not a directory). -/
theorem claim_files_returns_claimable {n : Nat} {t : List FileRow} {c : ClaimedFile}
    (h : c ∈ (claim_files_to_migrate n t).1) :
    ∃ b ∈ t, claimableFile b = true ∧ c.id = b.id := by
  unfold claim_files_to_migrate at h
  simp only [List.mem_map] at h
  obtain ⟨b, hb, hcb⟩ := h
  have hb2 : b ∈ sortByKey FileRow.path (t.filter claimableFile) :=
    List.mem_of_mem_take hb
  rw [mem_sortByKey] at hb2
  have hf := List.mem_filter.mp hb2
  exact ⟨b, hf.1, hf.2, by rw [← hcb]; rfl⟩

/-- After a `claim_files_to_migrate`, every row of the post-state carrying an
id that was returned has status scanned: the batch flipped each returned row
out of its claimable status in the same transaction. -/
theorem claim_files_post {n : Nat} {t : List FileRow} {c : ClaimedFile}
    (h : c ∈ (claim_files_to_migrate n t).1) :
    ∀ x ∈ (claim_files_to_migrate n t).2, x.id = c.id → x.status = FStatus.scanned := by
  unfold claim_files_to_migrate at h ⊢
  simp only [List.mem_map] at h
  obtain ⟨b, hb, hcb⟩ := h
  intro x hx hid
  simp only [List.mem_map] at hx
  obtain ⟨y, _, hxy⟩ := hx
  by_cases hy : (((sortByKey FileRow.path (t.filter claimableFile)).take n).any
      (fun s => decide (s.id = y.id))) = true
  · rw [← hxy]; simp [hy]
  · exfalso
    rw [if_neg hy] at hxy
    apply hy
    rw [List.any_eq_true]
    refine ⟨b, hb, ?_⟩
    rw [decide_eq_true_iff]
    have hcid : c.id = b.id := by rw [← hcb]; simp [toClaimed]
    rw [← hxy] at hid
    omega

/-- C1: concurrent claim calls are serialized by the store's atomic
transactions (SELECT ... FOR UPDATE SKIP LOCKED and the UPDATE commit
together), so a pair of concurrent calls is a pair of consecutive calls in
some order.  For both `claim_next_dir` and `claim_files_to_migrate`, a row
returned by the first call is never returned by the second: the first call
already flipped every returned row out of its claimable status (queued
becomes claimed, pending becomes scanned) in the same transaction that
selected it. -/
theorem no_double_claim_for_serialized_claim_calls
    (now1 now2 n1 n2 : Nat) (q : List ScanRow) (t : List FileRow)
    (d1 d2 : DirClaim) (c1 c2 : ClaimedFile)
    (hd1 : (claim_next_dir now1 q).1 = some d1)
    (hd2 : (claim_next_dir now2 (claim_next_dir now1 q).2).1 = some d2)
    (hc1 : c1 ∈ (claim_files_to_migrate n1 t).1)
    (hc2 : c2 ∈ (claim_files_to_migrate n2 (claim_files_to_migrate n1 t).2).1) :
    d1.id ≠ d2.id ∧ c1.id ≠ c2.id ∧
    ((claim_next_dir now1 q).2.all
      (fun x => !(decide (x.id = d1.id)) || decide (x.status = QStatus.claimed))) = true ∧
    ((claim_files_to_migrate n1 t).2.all
      (fun x => !(decide (x.id = c1.id)) || decide (x.status = FStatus.scanned))) = true := by
  refine ⟨?_, ?_, ?_, ?_⟩
  · intro he
    obtain ⟨r2, hr2mem, hr2q, hid2⟩ := claim_next_dir_returns_queued hd2
    have hcl := claim_next_dir_post hd1 r2 hr2mem (by omega)
    rw [hr2q] at hcl
    exact absurd hcl (by simp)
  · intro he
    obtain ⟨b2, hb2mem, hb2c, hid2⟩ := claim_files_returns_claimable hc2
    have hsc := claim_files_post hc1 b2 hb2mem (by omega)
    unfold claimableFile at hb2c
    rw [hsc] at hb2c
    simp at hb2c
  · rw [List.all_eq_true]
    intro x hx
    by_cases hxd : x.id = d1.id
    · have := claim_next_dir_post hd1 x hx hxd
      simp [this]
    · simp [hxd]
  · rw [List.all_eq_true]
    intro x hx
    by_cases hxc : x.id = c1.id
    · have := claim_files_post hc1 x hx hxc
      simp [this]
    · simp [hxc]

/-- Frontier table used by the concrete claim-call scenario: two queued
directories. -/
def wScanQueue : List ScanRow :=
  [{ id := 1, path := "/a/", parent_path := some "/", status := QStatus.queued,
     claimed_at := none },
   { id := 2, path := "/b/", parent_path := some "/", status := QStatus.queued,
     claimed_at := none }]

/-- Inventory table used by the concrete claim-call scenario: two pending
files. -/
def wFileMap : List FileRow :=
  [{ id := 11, path := "/a/x.bin", is_dir := false, parent_path := some "/a/",
     size := some 10, mime_type := some "application/octet-stream",
     bunny_url := some "https://ny.storage.bunnycdn.com/zone/a/x.bin",
     status := FStatus.pending, claimed_at := none, claimed_by := none },
   { id := 12, path := "/b/y.bin", is_dir := false, parent_path := some "/b/",
     size := some 20, mime_type := some "application/octet-stream",
     bunny_url := some "https://ny.storage.bunnycdn.com/zone/b/y.bin",
     status := FStatus.pending, claimed_at := none, claimed_by := none }]

/-- The directory claim returned by the first concrete claim call. -/
def wDir1 : DirClaim := { id := 1, path := "/a/", parent_path := some "/" }

/-- The directory claim returned by the second concrete claim call. -/
def wDir2 : DirClaim := { id := 2, path := "/b/", parent_path := some "/" }

/-- The file claim returned by the first concrete batch call. -/
def wClaim1 : ClaimedFile :=
  { id := 11, path := "/a/x.bin",
    bunny_url := some "https://ny.storage.bunnycdn.com/zone/a/x.bin",
    mime_type := some "application/octet-stream", size := some 10 }

/-- The file claim returned by the second concrete batch call. -/
def wClaim2 : ClaimedFile :=
  { id := 12, path := "/b/y.bin",
    bunny_url := some "https://ny.storage.bunnycdn.com/zone/b/y.bin",
    mime_type := some "application/octet-stream", size := some 20 }

/-- Witness for C1: on the concrete two-row frontier and inventory, two
consecutive directory claims return distinct rows and two consecutive
one-file batch claims return distinct rows, each flipped out of its
claimable status by the call that returned it. -/
theorem no_double_claim_for_serialized_claim_calls_witness :
    wDir1.id ≠ wDir2.id ∧ wClaim1.id ≠ wClaim2.id ∧
    ((claim_next_dir 50 wScanQueue).2.all
      (fun x => !(decide (x.id = wDir1.id)) || decide (x.status = QStatus.claimed))) = true ∧
    ((claim_files_to_migrate 1 wFileMap).2.all
      (fun x => !(decide (x.id = wClaim1.id)) || decide (x.status = FStatus.scanned))) = true :=
  no_double_claim_for_serialized_claim_calls 50 60 1 1 wScanQueue wFileMap
    wDir1 wDir2 wClaim1 wClaim2 (by decide) (by decide) (by decide) (by decide)

/-- The single pending inventory row of the C2 scenario. -/
def bugRow : FileRow :=
  { id := 7, path := "/a.txt", is_dir := false, parent_path := some "/",
    size := some 10, mime_type := some "text/plain",
    bunny_url := some "https://ny.storage.bunnycdn.com/zone/a.txt",
    status := FStatus.pending, claimed_at := none, claimed_by := none }

/-- C2: claiming one pending file with `claim_files_to_migrate` as defined in
db_setup.sql returns min(n, k) = 1 entry in path order, but flips the row to
status `scanned` — not to the interim `in_progress` status — and records no
claimed_at/claimed_by claim metadata at all (the UPDATE only sets status, and
the function does not even accept the worker_id its caller in migrate-files.js
passes). -/
theorem claim_files_sets_scanned_and_no_claim_metadata :
    claim_files_to_migrate 1 [bugRow] =
      ([toClaimed bugRow], [{ bugRow with status := FStatus.scanned }]) ∧
    FStatus.scanned ≠ FStatus.in_progress ∧
    ({ bugRow with status := FStatus.scanned }).claimed_at = none ∧
    ({ bugRow with status := FStatus.scanned }).claimed_by = none := by
  refine ⟨?_, by decide, rfl, rfl⟩
  rfl

/-- The reset the reclaimer applies to a stale claim: back to pending with
claim metadata cleared. -/
def resetRow (b : FileRow) : FileRow :=
  { b with status := FStatus.pending, claimed_at := none, claimed_by := none }

/-- C3: an inventory entry whose claim is older than the staleness threshold
is reset to pending (with claim metadata cleared) by
`reclaim_inprogress_to_pending`, and the reset entry satisfies the batch
selection predicate again: a subsequent `claim_files_to_migrate` whose batch
size covers the claimable rows returns it. -/
theorem stale_claim_reclaimed_and_claimable_again
    (now thr n ts : Nat) (t : List FileRow) (b : FileRow)
    (hmem : b ∈ t) (hst : b.status = FStatus.in_progress)
    (hts : b.claimed_at = some ts) (hstale : thr * 60000 < now - ts)
    (hfile : b.is_dir = false)
    (hn : ((reclaim_inprogress_to_pending now thr t).filter claimableFile).length ≤ n) :
    resetRow b ∈ reclaim_inprogress_to_pending now thr t ∧
    claimableFile (resetRow b) = true ∧
    toClaimed (resetRow b) ∈
      (claim_files_to_migrate n (reclaim_inprogress_to_pending now thr t)).1 := by
  have hb2 : resetRow b ∈ reclaim_inprogress_to_pending now thr t := by
    unfold reclaim_inprogress_to_pending
    rw [List.mem_map]
    refine ⟨b, hmem, ?_⟩
    rw [hts]
    simp [hst, hstale, resetRow]
  have hcl : claimableFile (resetRow b) = true := by
    simp [claimableFile, resetRow, hfile]
  refine ⟨hb2, hcl, ?_⟩
  unfold claim_files_to_migrate
  rw [List.mem_map]
  refine ⟨resetRow b, ?_, rfl⟩
  have hsorted : resetRow b ∈
      sortByKey FileRow.path
        ((reclaim_inprogress_to_pending now thr t).filter claimableFile) :=
    mem_sortByKey.mpr (List.mem_filter.mpr ⟨hb2, hcl⟩)
  rw [List.take_of_length_le]
  · exact hsorted
  · rw [length_sortByKey]
    exact hn

/-- The stale in-progress inventory row of the C3 scenario: claimed at
140000 ms, reaped at now = 2000000 ms with a 30-minute threshold. -/
def staleRow : FileRow :=
  { id := 21, path := "/stale.bin", is_dir := false, parent_path := some "/",
    size := some 5, mime_type := some "application/octet-stream",
    bunny_url := some "https://ny.storage.bunnycdn.com/zone/stale.bin",
    status := FStatus.in_progress, claimed_at := some 140000, claimed_by := some "w1" }

/-- Witness for C3: the concrete stale claim (30-minute threshold, claim
aged past it) is reset to pending and returned by the next batch claim. -/
theorem stale_claim_reclaimed_and_claimable_again_witness :
    resetRow staleRow ∈ reclaim_inprogress_to_pending 2000000 30 [staleRow] ∧
    claimableFile (resetRow staleRow) = true ∧
    toClaimed (resetRow staleRow) ∈
      (claim_files_to_migrate 5 (reclaim_inprogress_to_pending 2000000 30 [staleRow])).1 :=
  stale_claim_reclaimed_and_claimable_again 2000000 30 5 140000 [staleRow] staleRow
    (by decide) (by decide) (by decide) (by decide) (by decide) (by decide)

/-- A second insert attempt for the path of the first inventory row of
`wFileMap`, with a different generated id: the duplicate of the C4 witness. -/
def bugRow2 : FileRow :=
  { id := 98, path := "/a/x.bin", is_dir := false, parent_path := some "/a/",
    size := some 10, mime_type := some "application/octet-stream",
    bunny_url := some "https://ny.storage.bunnycdn.com/zone/a/x.bin",
    status := FStatus.pending, claimed_at := none, claimed_by := none }

/-- C4: an insert of a path already present in the frontier or the inventory
is a silent no-op — the unique-index violation (code 23505) the store raises
is swallowed by the javascript wrapper, the caller sees success, and the
table (every existing row, status included) is unchanged, so no second row
for the path ever exists — while any insert error that is not a uniqueness
violation is still propagated to the caller. -/
theorem duplicate_insert_is_silent_noop
    (q : List ScanRow) (t : List FileRow) (newId : Nat) (p : String)
    (parent : Option String) (entry : FileRow) (e : PgError)
    (hdupQ : q.any (fun x => decide (x.path = p)) = true)
    (hdupT : t.any (fun x => decide (x.path = entry.path)) = true)
    (hnd : isDupErr e = false) :
    insertDir q newId p parent = Except.ok q ∧
    insertFileOrDir t entry = Except.ok t ∧
    swallowDup q (Except.error e) = Except.error e := by
  have hdk : isDupErr dupKeyError = true := by decide
  refine ⟨?_, ?_, ?_⟩
  · unfold insertDir dbInsertUnique
    simp only [hdupQ, if_pos]
    unfold swallowDup
    simp [hdk]
  · unfold insertFileOrDir dbInsertUnique
    simp only [hdupT, if_pos]
    unfold swallowDup
    simp [hdk]
  · unfold swallowDup
    simp [hnd]

/-- Witness for C4: re-inserting the already-present paths of the concrete
frontier and inventory is accepted and leaves both tables unchanged, and a
non-duplicate error (permission denied, code 42501) propagates. -/
theorem duplicate_insert_is_silent_noop_witness :
    insertDir wScanQueue 99 "/a/" (some "/") = Except.ok wScanQueue ∧
    insertFileOrDir wFileMap bugRow2 = Except.ok wFileMap ∧
    swallowDup wScanQueue
      (Except.error { code := "42501", message := "permission denied" }) =
      Except.error { code := "42501", message := "permission denied" } :=
  duplicate_insert_is_silent_noop wScanQueue wFileMap 99 "/a/" (some "/") bugRow2
    { code := "42501", message := "permission denied" }
    (by decide) (by decide) (by decide)

/-- On an always-failing transfer, the retry loop entered with `a` attempts
already spent and `d = maxRetries - a ≥ 1` attempts left performs exactly
the remaining `d` attempts and produces the single terminal failure
effect set. -/
theorem migrateGo_all_fail (msg : String) (maxRetries jobId : Nat) (f : ClaimedFile) :
    ∀ d a, maxRetries = a + d → 1 ≤ d →
      migrateGo (fun _ => Except.error msg) maxRetries jobId f a =
        { attemptsRun := d, logs := [failLog jobId f maxRetries msg],
          finalStatus := some FStatus.failed,
          migratedDelta := 0, failedDelta := 1 } := by
  intro d
  induction d with
  | zero => omega
  | succ k ih =>
      intro a hsum _
      rw [migrateGo]
      have ha : a < maxRetries := by omega
      rw [dif_pos ha]
      by_cases hfin : maxRetries ≤ a + 1
      · have hk : k = 0 := by omega
        have hm : a + 1 = maxRetries := by omega
        subst hk
        simp [hm]
      · have hk1 : 1 ≤ k := by omega
        have hrec := ih (a + 1) (by omega) hk1
        simp only [hfin, if_false, hrec]

/-- C5: a file whose transfer fails on every attempt is retried exactly
MAX_RETRIES times by `migrateOne`; the run appends exactly one migration log
record — status failed, attempts = MAX_RETRIES, carrying the final error
message — finalizes the inventory row to status failed with claimed_at and
claimed_by cleared, and contributes exactly one failed_files increment
(failedDelta = 1) and no migrated_files increment. -/
theorem always_failing_transfer_exhausts_retries
    (maxRetries jobId : Nat) (hmr : 1 ≤ maxRetries) (f : ClaimedFile)
    (msg : String) (t : List FileRow) :
    migrateOne (fun _ => Except.error msg) maxRetries jobId f =
      { attemptsRun := maxRetries, logs := [failLog jobId f maxRetries msg],
        finalStatus := some FStatus.failed,
        migratedDelta := 0, failedDelta := 1 } ∧
    (failLog jobId f maxRetries msg).status = LStatus.failed ∧
    (failLog jobId f maxRetries msg).attempts = maxRetries ∧
    ((finalizeFile t f.id FStatus.failed).all
      (fun x => !(decide (x.id = f.id)) ||
        (decide (x.status = FStatus.failed) && decide (x.claimed_at = none) &&
         decide (x.claimed_by = none)))) = true := by
  refine ⟨?_, rfl, rfl, ?_⟩
  · exact migrateGo_all_fail msg maxRetries jobId f maxRetries 0 (by omega) hmr
  · rw [List.all_eq_true]
    intro x hx
    unfold finalizeFile at hx
    rw [List.mem_map] at hx
    obtain ⟨y, _, hxy⟩ := hx
    by_cases hy : y.id = f.id
    · rw [← hxy]; simp [hy]
    · rw [← hxy]; simp [hy]

/-- The claimed file of the C5 witness scenario. -/
def wFailFile : ClaimedFile :=
  { id := 11, path := "/a/x.bin",
    bunny_url := some "https://ny.storage.bunnycdn.com/zone/a/x.bin",
    mime_type := some "application/octet-stream", size := some 10 }

/-- Witness for C5: with MAX_RETRIES = 3 and a transfer that always fails
with a timeout, the concrete run performs 3 attempts, logs one failed record
with attempts = 3, finalizes the row to failed with cleared claim metadata,
and counts one failed file. -/
theorem always_failing_transfer_exhausts_retries_witness :
    migrateOne (fun _ => Except.error "timeout") 3 5 wFailFile =
      { attemptsRun := 3, logs := [failLog 5 wFailFile 3 "timeout"],
        finalStatus := some FStatus.failed,
        migratedDelta := 0, failedDelta := 1 } ∧
    (failLog 5 wFailFile 3 "timeout").status = LStatus.failed ∧
    (failLog 5 wFailFile 3 "timeout").attempts = 3 ∧
    ((finalizeFile wFileMap wFailFile.id FStatus.failed).all
      (fun x => !(decide (x.id = wFailFile.id)) ||
        (decide (x.status = FStatus.failed) && decide (x.claimed_at = none) &&
         decide (x.claimed_by = none)))) = true :=
  always_failing_transfer_exhausts_retries 3 5 (by omega) wFailFile "timeout" wFileMap

/-- An all-zero progress row. -/
def zeroProg : Progress :=
  { total_bytes := 0, total_files := 0, scanned_dirs := 0,
    migrated_files := 0, failed_files := 0, last_update := 0 }

/-- A running discover job for the loop scenarios. -/
def wJobRun : Job :=
  { id := 3, kind := JobKind.discover, status := JStatus.running, note := none,
    created_at := 0, last_heartbeat := some 0, worker_id := some "w1" }

/-- The already-scanned frontier root, leaving no queued entry. -/
def rootDone : ScanRow :=
  { id := 1, path := "/", parent_path := none, status := QStatus.done,
    claimed_at := some 10 }

/-- Crawler state with a running job and an exhausted frontier. -/
def c6State : CrawlState :=
  { job := wJobRun, queue := [rootDone], inv := [], prog := zeroProg,
    now := 30000, nextId := 100 }

/-- A listing oracle returning an empty directory for every path. -/
def emptyListing : String → Except String (List BunnyItem) :=
  fun _ => Except.ok []

/-- Counterexample to C6 as stated: on a concrete running crawl whose
frontier has no queued entry, a single iteration issues exactly one
`claim_next_dir` call, and that single empty claim already marks the job
completed and exits the loop — there is no second attempt after a pause
(discover-files.js lines 229-234 break immediately). -/
theorem single_empty_claim_completes_crawl_job :
    (crawlIteration id emptyListing c6State).st.job.status = JStatus.completed ∧
    (crawlIteration id emptyListing c6State).outcome = LoopOutcome.exitLoop ∧
    (crawlIteration id emptyListing c6State).claimCalls = 1 := by
  refine ⟨rfl, rfl, rfl⟩

/-- C6 amended: the crawler's main loop transitions the job to completed and
exits as soon as `claim_next_dir` returns none once; a single empty claim
result completes the job immediately, with no second attempt and no pause
(only the migration worker's loop does the double-check with a pause). -/
theorem crawler_completes_on_first_empty_claim
    (absUrl : String → String) (listOf : String → Except String (List BunnyItem))
    (s : CrawlState) (hrun : s.job.status = JStatus.running)
    (hempty : (claim_next_dir s.now s.queue).1 = none) :
    (crawlIteration absUrl listOf s).st.job.status = JStatus.completed ∧
    (crawlIteration absUrl listOf s).outcome = LoopOutcome.exitLoop ∧
    (crawlIteration absUrl listOf s).claimCalls = 1 := by
  rcases hcp : claim_next_dir s.now s.queue with ⟨o, q2⟩
  rw [hcp] at hempty
  have ho : o = none := hempty
  subst ho
  simp [crawlIteration, touch_job, hrun, hcp]

/-- Witness for the amended C6 statement at the concrete exhausted-frontier
state. -/
theorem crawler_completes_on_first_empty_claim_witness :
    (crawlIteration id emptyListing c6State).st.job.status = JStatus.completed ∧
    (crawlIteration id emptyListing c6State).outcome = LoopOutcome.exitLoop ∧
    (crawlIteration id emptyListing c6State).claimCalls = 1 :=
  crawler_completes_on_first_empty_claim id emptyListing c6State (by decide) (by decide)

/-- Counterexample to C7 as stated: the migration worker installs no
heartbeat timer at all — the complete list of `setInterval` registrations of
migrate-files.js is the single stale-claim reclaim task, which is not a
heartbeat. -/
theorem migrate_worker_installs_no_heartbeat :
    migrateTimers = [{ interval := 300000, task := PeriodicTask.reclaimTask }] ∧
    PeriodicTask.reclaimTask ≠ PeriodicTask.heartbeatTask := by
  refine ⟨rfl, by decide⟩

/-- C7 amended: only the discover worker emits a periodic heartbeat — a
fixed-interval timer every HEARTBEAT_MS = 15000 ms whose task (the
`touch_job` rpc) updates the job's last_heartbeat and nothing else the
reaper reads — while the migrate worker's only periodic task is the
stale-claim reclaimer, so migrate jobs never receive heartbeats. -/
theorem only_discover_worker_heartbeats :
    discoverTimers = [{ interval := HEARTBEAT_MS, task := PeriodicTask.heartbeatTask }] ∧
    HEARTBEAT_MS = 15000 ∧
    (∀ (now : Nat) (j : Job),
      (touch_job now j).last_heartbeat = some now ∧
      (touch_job now j).status = j.status ∧ (touch_job now j).kind = j.kind) ∧
    migrateTimers.all (fun tm => !(decide (tm.task = PeriodicTask.heartbeatTask))) = true := by
  exact ⟨rfl, rfl, fun now j => ⟨rfl, rfl, rfl⟩, by decide⟩

/-- C8: when the listing of a claimed directory errors, the crawler marks
exactly that frontier entry failed, applies no progress increment, leaves
the inventory untouched, keeps the job running, and continues its loop
(discover-files.js lines 276-279): one failing directory aborts neither the
crawl nor the job. -/
theorem listing_error_marks_dir_failed_and_continues
    (absUrl : String → String) (listOf : String → Except String (List BunnyItem))
    (s : CrawlState) (d : DirClaim) (msg : String)
    (hrun : s.job.status = JStatus.running)
    (hclaim : (claim_next_dir s.now s.queue).1 = some d)
    (herr : listOf d.path = Except.error msg) :
    (crawlIteration absUrl listOf s).outcome = LoopOutcome.continueLoop ∧
    (crawlIteration absUrl listOf s).st.job.status = JStatus.running ∧
    (crawlIteration absUrl listOf s).st.prog = s.prog ∧
    (crawlIteration absUrl listOf s).st.inv = s.inv ∧
    ((crawlIteration absUrl listOf s).st.queue.all
      (fun x => !(decide (x.id = d.id)) || decide (x.status = QStatus.failed))) = true := by
  rcases hcp : claim_next_dir s.now s.queue with ⟨o, q2⟩
  rw [hcp] at hclaim
  have ho : o = some d := hclaim
  subst ho
  refine ⟨?_, ?_, ?_, ?_, ?_⟩ <;>
    (simp only [crawlIteration, touch_job, hrun, hcp, herr]; try rfl)
  rw [List.all_eq_true]
  intro x hx
  unfold markDirDone at hx
  rw [List.mem_map] at hx
  obtain ⟨y, _, hxy⟩ := hx
  by_cases hy : y.id = d.id
  · rw [← hxy]; simp [hy]
  · rw [← hxy]; simp [hy]

/-- A still-queued frontier entry whose listing will fail. -/
def queuedRow : ScanRow :=
  { id := 2, path := "/bad/", parent_path := some "/", status := QStatus.queued,
    claimed_at := none }

/-- Crawler state for the failing-listing scenario. -/
def c8State : CrawlState :=
  { job := wJobRun, queue := [rootDone, queuedRow], inv := [], prog := zeroProg,
    now := 40000, nextId := 200 }

/-- A listing oracle that fails on every path. -/
def failListing : String → Except String (List BunnyItem) :=
  fun _ => Except.error "HTTP 500"

/-- The claim the crawler obtains in the failing-listing scenario. -/
def wBadDir : DirClaim := { id := 2, path := "/bad/", parent_path := some "/" }

/-- Witness for C8 at the concrete failing-listing state. -/
theorem listing_error_marks_dir_failed_and_continues_witness :
    (crawlIteration id failListing c8State).outcome = LoopOutcome.continueLoop ∧
    (crawlIteration id failListing c8State).st.job.status = JStatus.running ∧
    (crawlIteration id failListing c8State).st.prog = c8State.prog ∧
    (crawlIteration id failListing c8State).st.inv = c8State.inv ∧
    ((crawlIteration id failListing c8State).st.queue.all
      (fun x => !(decide (x.id = wBadDir.id)) || decide (x.status = QStatus.failed))) = true :=
  listing_error_marks_dir_failed_and_continues id failListing c8State wBadDir
    "HTTP 500" (by decide) (by decide) rfl

/-- C9: both loops re-read the job status at every iteration before
claiming.  A paused status makes the iteration wait and continue without
issuing any claim call; a stopped, failed or completed status makes the
iteration exit without issuing any claim call. -/
theorem job_status_gates_each_iteration
    (absUrl : String → String) (listOf : String → Except String (List BunnyItem))
    (s : CrawlState) (tr : Nat → Except String Unit) (maxR bs : Nat)
    (ms : MigState) :
    (s.job.status = JStatus.paused →
      (crawlIteration absUrl listOf s).outcome = LoopOutcome.continueLoop ∧
      (crawlIteration absUrl listOf s).claimCalls = 0) ∧
    (s.job.status = JStatus.stopped ∨ s.job.status = JStatus.failed ∨
        s.job.status = JStatus.completed →
      (crawlIteration absUrl listOf s).outcome = LoopOutcome.exitLoop ∧
      (crawlIteration absUrl listOf s).claimCalls = 0) ∧
    (ms.job.status = JStatus.paused →
      (migrateIteration tr maxR bs ms).outcome = LoopOutcome.continueLoop ∧
      (migrateIteration tr maxR bs ms).claimCalls = 0) ∧
    (ms.job.status = JStatus.stopped ∨ ms.job.status = JStatus.failed ∨
        ms.job.status = JStatus.completed →
      (migrateIteration tr maxR bs ms).outcome = LoopOutcome.exitLoop ∧
      (migrateIteration tr maxR bs ms).claimCalls = 0) := by
  refine ⟨?_, ?_, ?_, ?_⟩
  · intro hp
    simp [crawlIteration, touch_job, hp]
  · rintro (hp | hp | hp) <;> simp [crawlIteration, touch_job, hp]
  · intro hp
    simp [migrateIteration, hp]
  · rintro (hp | hp | hp) <;> simp [migrateIteration, hp]

/-- A transfer oracle that always succeeds. -/
def okTransfer : Nat → Except String Unit := fun _ => Except.ok ()

/-- The paused crawler state of the C9 scenario. -/
def cPausedState : CrawlState :=
  { job := { wJobRun with status := JStatus.paused }, queue := [rootDone, queuedRow],
    inv := [], prog := zeroProg, now := 100, nextId := 1 }

/-- The stopped crawler state of the C9 scenario. -/
def cStoppedState : CrawlState :=
  { job := { wJobRun with status := JStatus.stopped }, queue := [rootDone, queuedRow],
    inv := [], prog := zeroProg, now := 100, nextId := 1 }

/-- The paused migration-worker state of the C9 scenario. -/
def mPausedState : MigState :=
  { job := { wJobRun with kind := JobKind.migrate, status := JStatus.paused },
    inv := wFileMap, prog := zeroProg, logs := [], now := 100 }

/-- The stopped migration-worker state of the C9 scenario. -/
def mStoppedState : MigState :=
  { job := { wJobRun with kind := JobKind.migrate, status := JStatus.stopped },
    inv := wFileMap, prog := zeroProg, logs := [], now := 100 }

/-- Witness for C9: at the concrete paused and stopped states, both loops
behave as stated and issue zero claim calls. -/
theorem job_status_gates_each_iteration_witness :
    ((crawlIteration id emptyListing cPausedState).outcome = LoopOutcome.continueLoop ∧
     (crawlIteration id emptyListing cPausedState).claimCalls = 0) ∧
    ((crawlIteration id emptyListing cStoppedState).outcome = LoopOutcome.exitLoop ∧
     (crawlIteration id emptyListing cStoppedState).claimCalls = 0) ∧
    ((migrateIteration okTransfer 3 5 mPausedState).outcome = LoopOutcome.continueLoop ∧
     (migrateIteration okTransfer 3 5 mPausedState).claimCalls = 0) ∧
    ((migrateIteration okTransfer 3 5 mStoppedState).outcome = LoopOutcome.exitLoop ∧
     (migrateIteration okTransfer 3 5 mStoppedState).claimCalls = 0) :=
  ⟨(job_status_gates_each_iteration id emptyListing cPausedState okTransfer 3 5
      mPausedState).1 rfl,
   (job_status_gates_each_iteration id emptyListing cStoppedState okTransfer 3 5
      mStoppedState).2.1 (Or.inl rfl),
   (job_status_gates_each_iteration id emptyListing cPausedState okTransfer 3 5
      mPausedState).2.2.1 rfl,
   (job_status_gates_each_iteration id emptyListing cStoppedState okTransfer 3 5
      mStoppedState).2.2.2 (Or.inl rfl)⟩

/-- `newestBy` returns none only on the empty list. -/
theorem newestBy_eq_none {l : List Job} (h : newestBy l = none) : l = [] := by
  cases l with
  | nil => rfl
  | cons j js =>
      unfold newestBy at h
      cases hn : newestBy js with
      | none => rw [hn] at h; simp at h
      | some m =>
          rw [hn] at h
          by_cases hc : j.created_at < m.created_at <;> simp [hc] at h

/-- `newestBy` returns a member whose created_at is maximal. -/
theorem newestBy_spec : ∀ {l : List Job} {j : Job}, newestBy l = some j →
    j ∈ l ∧ ∀ x ∈ l, x.created_at ≤ j.created_at := by
  intro l
  induction l with
  | nil => intro j h; simp [newestBy] at h
  | cons a as ih =>
      intro j h
      unfold newestBy at h
      cases hn : newestBy as with
      | none =>
          rw [hn] at h
          simp at h
          subst h
          have has : as = [] := newestBy_eq_none hn
          subst has
          refine ⟨List.mem_singleton.mpr rfl, ?_⟩
          intro x hx
          rw [List.mem_singleton] at hx
          subst hx
          exact Nat.le_refl _
      | some m =>
          rw [hn] at h
          have h2 : (if a.created_at < m.created_at then some m else some a) = some j := h
          obtain ⟨hm, hall⟩ := ih hn
          by_cases hc : a.created_at < m.created_at
          · rw [if_pos hc] at h2
            simp at h2
            subst h2
            refine ⟨List.mem_cons_of_mem a hm, ?_⟩
            intro x hx
            rcases List.mem_cons.mp hx with hx | hx
            · subst hx; omega
            · exact hall x hx
          · rw [if_neg hc] at h2
            simp at h2
            subst h2
            refine ⟨List.mem_cons_self a as, ?_⟩
            intro x hx
            rcases List.mem_cons.mp hx with hx | hx
            · subst hx
              exact Nat.le_refl _
            · have := hall x hx
              omega

/-- The stale-job reap and the healthy-age check are exact complements, so
the running discover jobs that survive the reap are exactly the healthy
running discover jobs of the original table. -/
theorem filter_runningDiscover_reap (now : Nat) (jobs : List Job) :
    (reap_stale_jobs now JobKind.discover STALE_MINUTES jobs).filter runningDiscover =
      jobs.filter (healthyRunningDiscover now) := by
  induction jobs with
  | nil => rfl
  | cons j js ih =>
      simp only [reap_stale_jobs, List.map_cons] at ih ⊢
      by_cases hk : j.kind = JobKind.discover
      · by_cases hs : j.status = JStatus.running
        · by_cases hst : STALE_MINUTES * 60000 < now - j.last_heartbeat.getD j.created_at
          · have hna : ¬ (now - j.last_heartbeat.getD j.created_at ≤
                STALE_MINUTES * 60000) := by omega
            simp [List.filter_cons, hk, hs, hst, runningDiscover,
              healthyRunningDiscover, healthyAge, hna] at ih ⊢
            exact ih
          · have hya : now - j.last_heartbeat.getD j.created_at ≤
                STALE_MINUTES * 60000 := by omega
            simp [List.filter_cons, hk, hs, hst, runningDiscover,
              healthyRunningDiscover, healthyAge, hya] at ih ⊢
            exact ih
        · simp [List.filter_cons, hk, hs, runningDiscover,
            healthyRunningDiscover] at ih ⊢
          exact ih
      · simp [List.filter_cons, hk, runningDiscover,
          healthyRunningDiscover] at ih ⊢
        exact ih

/-- C10: with parallel discovery disabled, the crawler's startup (reap, then
`findHealthyRunningJob`) creates a fresh job exactly when no healthy running
discover job exists, and otherwise adopts a healthy running discover job
that is most recently created among them: `specAdoptedJob`, stated from the
claim's words, is realized by the startup path of the source. -/
theorem crawler_adopts_newest_healthy_running_job (now : Nat) (jobs : List Job) :
    (jobs.all (fun x => !(healthyRunningDiscover now x)) = true →
       crawlerStartup now jobs = Adoption.createNew) ∧
    (∀ j, specAdoptedJob now jobs = some j →
       crawlerStartup now jobs = Adoption.reuse j ∧
       j ∈ jobs ∧ healthyRunningDiscover now j = true ∧
       jobs.all (fun x => !(healthyRunningDiscover now x) ||
         decide (x.created_at ≤ j.created_at)) = true) := by
  have hfil := filter_runningDiscover_reap now jobs
  constructor
  · intro hall
    have hnil : jobs.filter (healthyRunningDiscover now) = [] := by
      rw [List.filter_eq_nil_iff]
      intro a ha
      have hx := (List.all_eq_true.mp hall) a ha
      simp only [Bool.not_eq_true'] at hx
      simp [hx]
    simp only [crawlerStartup, findHealthyRunningJob]
    rw [hfil, hnil]
    rfl
  · intro j hj
    unfold specAdoptedJob at hj
    obtain ⟨hmem, hmax⟩ := newestBy_spec hj
    have hmemf := List.mem_filter.mp hmem
    refine ⟨?_, hmemf.1, hmemf.2, ?_⟩
    · have hha : healthyAge now j = true := by
        have hh := hmemf.2
        simp only [healthyRunningDiscover, Bool.and_eq_true] at hh
        exact hh.2
      simp only [crawlerStartup, findHealthyRunningJob]
      rw [hfil, hj]
      simp [hha]
    · rw [List.all_eq_true]
      intro x hx
      by_cases hhx : healthyRunningDiscover now x = true
      · have hxf : x ∈ jobs.filter (healthyRunningDiscover now) :=
          List.mem_filter.mpr ⟨hx, hhx⟩
        have hle := hmax x hxf
        simp [hle]
      · rw [Bool.not_eq_true] at hhx
        simp [hhx]

/-- The older but healthy running discover job of the C10 scenario: created
at 100000 ms, heartbeat 50 seconds before now = 600000. -/
def jOldHealthy : Job :=
  { id := 1, kind := JobKind.discover, status := JStatus.running, note := none,
    created_at := 100000, last_heartbeat := some 550000, worker_id := some "w1" }

/-- The newer but stale running discover job of the C10 scenario: heartbeat
5 minutes before now = 600000, past the 2-minute threshold. -/
def jNewStale : Job :=
  { id := 2, kind := JobKind.discover, status := JStatus.running, note := none,
    created_at := 200000, last_heartbeat := some 300000, worker_id := some "w2" }

/-- Witness for C10: with only the stale job present the startup creates a
new job, and with both jobs present it adopts the healthy one (the stale,
though more recently created, is reaped and not adopted). -/
theorem crawler_adopts_newest_healthy_running_job_witness :
    crawlerStartup 600000 [jNewStale] = Adoption.createNew ∧
    (crawlerStartup 600000 [jNewStale, jOldHealthy] = Adoption.reuse jOldHealthy ∧
     jOldHealthy ∈ [jNewStale, jOldHealthy] ∧
     healthyRunningDiscover 600000 jOldHealthy = true ∧
     ([jNewStale, jOldHealthy].all (fun x => !(healthyRunningDiscover 600000 x) ||
       decide (x.created_at ≤ jOldHealthy.created_at))) = true) :=
  ⟨(crawler_adopts_newest_healthy_running_job 600000 [jNewStale]).1 (by decide),
   (crawler_adopts_newest_healthy_running_job 600000 [jNewStale, jOldHealthy]).2
     jOldHealthy (by decide)⟩
